import Mathlib

/-!
Verification of the text-validator core of this repository
(`src/validators/string.rs`): the simple and full string validators,
their schema-match predicates, the build step, and the constraint
pipeline (min_length, max_length, pattern, strip_whitespace,
to_lower, to_upper).

Rust strings are modelled as lists of characters; `str::len` (a byte
count in Rust) is modelled as the sum of the UTF-8 sizes of the
characters.  `str::trim` is modelled with `List.dropWhile` /
`List.rdropWhile` on `Char.isWhitespace`; `to_lowercase` /
`to_uppercase` are modelled character-wise with `Char.toLower` /
`Char.toUpper`.
-/

namespace PydanticStr

/-- A native text value: Rust `String` modelled as a list of characters. -/
abbrev Str := List Char

/-- Rust `str::len`: the length of the string in bytes, i.e. the sum of
the UTF-8 byte sizes of its characters. -/
def strLen (s : Str) : Nat := (s.map Char.utf8Size).sum

/-- Rust `str::trim`: remove whitespace from both ends of the string. -/
def trim (s : Str) : Str :=
  List.rdropWhile Char.isWhitespace (List.dropWhile Char.isWhitespace s)

/-- Rust `str::to_lowercase`, modelled character-wise. -/
def toLowerStr (s : Str) : Str := s.map Char.toLower

/-- Rust `str::to_uppercase`, modelled character-wise. -/
def toUpperStr (s : Str) : Str := s.map Char.toUpper

/-- The error kinds produced by the string validators (`ErrorKind` in
`crate::errors`): the wrong-type error raised by the external text
coercion, and the three constraint errors raised in
`FullStrValidator::validate`. -/
inductive ErrorKind where
  | WrongType
  | StrTooShort
  | StrTooLong
  | StrPatternMismatch
deriving DecidableEq, Repr

/-- A value stored in an error context (`context!` maps parameter names
to concrete values: a `usize` for the length bounds, a string for the
pattern). -/
inductive CtxVal where
  | nat (n : Nat)
  | str (s : Str)
deriving DecidableEq, Repr

/-- A classified validation error: a kind plus a context mapping
parameter names to the concrete values that caused the failure
(`err_val_error!`). -/
structure ValError where
  kind : ErrorKind
  context : List (String × CtxVal)
deriving DecidableEq, Repr

/-- An input value handed to `validate`.  Modelled from the spec: the
text-coercion collaborator accepts native text as-is, may accept a
limited set of coercible values (carried here together with their text
form), and rejects everything else. -/
inductive InputValue where
  | text (s : Str)
  | coercible (s : Str)
  | other
deriving DecidableEq

/-- Modelled from the spec: the external text-coercion collaborator
`validate_str` (from `crate::standalone_validators`, not part of the
source slice).  Native text passes through unchanged, coercible values
yield their text form, everything else fails with a wrong-type error
before any constraint runs. -/
def validate_str (input : InputValue) : Except ValError Str :=
  match input with
  | .text s => .ok s
  | .coercible s => .ok s
  | .other => .error ⟨.WrongType, []⟩

/-- Modelled from the spec: a compiled pattern (`RegexPattern` from
`crate::utils`, not part of the source slice) holds the original
pattern string (its `to_string`) and a deterministic matcher. -/
structure RegexPattern where
  source : Str
  is_match : Str → Bool

/-- A schema value: the shapes of constraint values the text validator
recognizes (string, non-negative integer, boolean). -/
inductive SchemaVal where
  | vstr (s : Str)
  | vnat (n : Nat)
  | vbool (b : Bool)
deriving DecidableEq

/-- A schema: a read-only mapping from constraint-name to value,
modelled as an association list (`PyDict`). -/
abbrev Schema := List (String × SchemaVal)

/-- `PyDict::get_item`: look up a key in the schema. -/
def get_item (d : Schema) (k : String) : Option SchemaVal :=
  (d.find? (fun p => p.1 == k)).map (fun p => p.2)

/-- An error raised while building a validator from a schema: a
constraint value of the wrong shape, or an invalid pattern value. -/
inductive BuildError where
  | badValue (key : String)
  | badPattern
deriving DecidableEq

/-- The `dict_get!` macro (from `crate::utils`, not part of the source
slice) at type `usize`.  Modelled from the spec: a missing key yields
`none`, a present integer value is extracted, a value of the wrong
shape is a build error. -/
def dict_get_nat (d : Schema) (k : String) : Except BuildError (Option Nat) :=
  match get_item d k with
  | some (.vnat n) => .ok (some n)
  | some _ => .error (.badValue k)
  | none => .ok none

/-- The `dict_get!` macro at type `bool`, modelled like
`dict_get_nat`. -/
def dict_get_bool (d : Schema) (k : String) : Except BuildError (Option Bool) :=
  match get_item d k with
  | some (.vbool b) => .ok (some b)
  | some _ => .error (.badValue k)
  | none => .ok none

/-- Modelled from the spec: `RegexPattern::py_new` compiles a schema
value into a reusable pattern.  A non-string value fails; the matcher
semantics are external (the regex engine) and are not modelled, so the
compiled matcher is left opaque here. -/
def RegexPattern.py_new (v : SchemaVal) : Except BuildError RegexPattern :=
  match v with
  | .vstr s => .ok ⟨s, fun _ => true⟩
  | _ => .error .badPattern

/-- `SimpleStrValidator::is_match`: the simple kind matches exactly
when the declared type is `"str"` and none of the six recognized
constraint keys is present in the schema. -/
def SimpleStrValidator.is_match (type_ : String) (dict : Schema) : Bool :=
  type_ == "str"
    && (get_item dict "pattern").isNone
    && (get_item dict "min_length").isNone
    && (get_item dict "max_length").isNone
    && (get_item dict "strip_whitespace").isNone
    && (get_item dict "to_lower").isNone
    && (get_item dict "to_upper").isNone

/-- `SimpleStrValidator::validate`: the fast path — coerce to text and
return the value unchanged, with no constraint checks. -/
def SimpleStrValidator.validate (input : InputValue) : Except ValError Str :=
  match validate_str input with
  | .ok s => .ok s
  | .error e => .error e

/-- `FullStrValidator`: holds the parsed constraints (field order as in
the Rust struct). -/
structure FullStrValidator where
  pattern : Option RegexPattern
  max_length : Option Nat
  min_length : Option Nat
  strip_whitespace : Bool
  to_lower : Bool
  to_upper : Bool

/-- `FullStrValidator::is_match`: the catch-all for the declared type
`"str"`. -/
def FullStrValidator.is_match (type_ : String) (_dict : Schema) : Bool :=
  type_ == "str"

/-- `FullStrValidator::build`: compile the pattern if present, extract
the two length bounds and the three boolean flags (absent booleans
default to `false` via `unwrap_or(false)`). -/
def FullStrValidator.build (dict : Schema) : Except BuildError FullStrValidator := do
  let pattern ← match get_item dict "pattern" with
    | some v => (RegexPattern.py_new v).map some
    | none => Except.ok none
  let min_length ← dict_get_nat dict "min_length"
  let max_length ← dict_get_nat dict "max_length"
  let strip_whitespace ← dict_get_bool dict "strip_whitespace"
  let to_lower ← dict_get_bool dict "to_lower"
  let to_upper ← dict_get_bool dict "to_upper"
  Except.ok ⟨pattern, max_length, min_length,
    strip_whitespace.getD false, to_lower.getD false, to_upper.getD false⟩

/-- The transformation tail of `FullStrValidator::validate` (source
lines 107–115): strip whitespace if configured, then lowercase if
`to_lower`, else uppercase if `to_upper`. -/
def FullStrValidator.transform (v : FullStrValidator) (s : Str) : Str :=
  let s1 := if v.strip_whitespace then trim s else s
  if v.to_lower then toLowerStr s1
  else if v.to_upper then toUpperStr s1
  else s1

/-- The pattern check of `FullStrValidator::validate` (source lines
96–105), continuing into the transformation tail on success. -/
def FullStrValidator.checkPattern (v : FullStrValidator) (s : Str) : Except ValError Str :=
  match v.pattern with
  | some p =>
    if p.is_match s then .ok (v.transform s)
    else .error ⟨.StrPatternMismatch, [("pattern", .str p.source)]⟩
  | none => .ok (v.transform s)

/-- The `max_length` check of `FullStrValidator::validate` (source
lines 86–95), continuing into the pattern check on success. -/
def FullStrValidator.checkMax (v : FullStrValidator) (s : Str) : Except ValError Str :=
  match v.max_length with
  | some max_length =>
    if strLen s > max_length then
      .error ⟨.StrTooLong, [("max_length", .nat max_length)]⟩
    else v.checkPattern s
  | none => v.checkPattern s

/-- The `min_length` check of `FullStrValidator::validate` (source
lines 75–85), continuing into the `max_length` check on success. -/
def FullStrValidator.checkMin (v : FullStrValidator) (s : Str) : Except ValError Str :=
  match v.min_length with
  | some min_length =>
    if strLen s < min_length then
      .error ⟨.StrTooShort, [("min_length", .nat min_length)]⟩
    else v.checkMax s
  | none => v.checkMax s

/-- `FullStrValidator::validate`: coerce the input to text (failures
propagate), then run the constraint pipeline in order. -/
def FullStrValidator.validate (v : FullStrValidator) (input : InputValue) : Except ValError Str :=
  match validate_str input with
  | .ok s => v.checkMin s
  | .error e => .error e

/-- Does the value violate a configured `min_length`? -/
def minViol (v : FullStrValidator) (s : Str) : Bool :=
  match v.min_length with
  | some n => decide (strLen s < n)
  | none => false

/-- Does the value violate a configured `max_length`? -/
def maxViol (v : FullStrValidator) (s : Str) : Bool :=
  match v.max_length with
  | some n => decide (strLen s > n)
  | none => false

/-- Does the value fail a configured pattern? -/
def patViol (v : FullStrValidator) (s : Str) : Bool :=
  match v.pattern with
  | some p => !(p.is_match s)
  | none => false

/-- All three checks of the pipeline pass on this value. -/
def checksOk (v : FullStrValidator) (s : Str) : Bool :=
  !(minViol v s) && !(maxViol v s) && !(patViol v s)

end PydanticStr
namespace PydanticStr

/-- The whitespace-stripping step of the transformation tail. -/
def stripStep (v : FullStrValidator) (s : Str) : Str :=
  if v.strip_whitespace then trim s else s

/-- The case step of the transformation tail. -/
def caseStep (v : FullStrValidator) (s : Str) : Str :=
  if v.to_lower then toLowerStr s else if v.to_upper then toUpperStr s else s

def strHiPad : Str := [' ', ' ', 'h', 'i', ' ', ' ']
def strHiMixed : Str := [' ', ' ', 'H', 'i', ' ', ' ']
def strHi : Str := ['h', 'i']
def strAb : Str := ['a', 'b']
def strAbc : Str := ['a', 'b', 'c']
def strAbcd : Str := ['a', 'b', 'c', 'd']
def strAbcde : Str := ['a', 'b', 'c', 'd', 'e']
def strHello : Str := ['H', 'e', 'l', 'l', 'o']
def strAbC : Str := ['A', 'b', 'C']

def vStrip6 : FullStrValidator := ⟨none, none, some 6, true, false, false⟩
def vMinOnly (n : Nat) : FullStrValidator := ⟨none, none, some n, false, false, false⟩
def vMaxOnly (n : Nat) : FullStrValidator := ⟨none, some n, none, false, false, false⟩
def vMinMax (mn mx : Nat) : FullStrValidator := ⟨none, some mx, some mn, false, false, false⟩
def vBothCase : FullStrValidator := ⟨none, none, none, false, true, true⟩
def vStripLower : FullStrValidator := ⟨none, none, none, true, true, false⟩
def defaultFull : FullStrValidator := ⟨none, none, none, false, false, false⟩

def lowerAsciiPattern : RegexPattern :=
  ⟨['^', '[', 'a', '-', 'z', ']', '+', '$'],
   fun s => !s.isEmpty && s.all (fun c => decide ('a' ≤ c) && decide (c ≤ 'z'))⟩

def vPatternLower : FullStrValidator := ⟨some lowerAsciiPattern, none, none, false, false, false⟩

theorem toLower_eq (c : Char) :
    Char.toLower c = if c.toNat ≥ 65 ∧ c.toNat ≤ 90 then Char.ofNat (c.toNat + 32) else c := rfl

theorem toUpper_eq (c : Char) :
    Char.toUpper c = if c.toNat ≥ 97 ∧ c.toNat ≤ 122 then Char.ofNat (c.toNat - 32) else c := rfl

theorem toNat_ofNat_valid {m : Nat} (h : m.isValidChar) : (Char.ofNat m).toNat = m := by
  rw [Char.ofNat, dif_pos h]
  rfl

theorem isValidChar_of_small {m : Nat} (h : m < 0xD800) : m.isValidChar := Or.inl h

theorem toNat_toLower (c : Char) :
    (Char.toLower c).toNat = if c.toNat ≥ 65 ∧ c.toNat ≤ 90 then c.toNat + 32 else c.toNat := by
  rw [toLower_eq]
  split
  case isTrue h =>
    exact toNat_ofNat_valid (isValidChar_of_small (by omega))
  case isFalse h => rfl

theorem toNat_toUpper (c : Char) :
    (Char.toUpper c).toNat = if c.toNat ≥ 97 ∧ c.toNat ≤ 122 then c.toNat - 32 else c.toNat := by
  rw [toUpper_eq]
  split
  case isTrue h =>
    exact toNat_ofNat_valid (isValidChar_of_small (by omega))
  case isFalse h => rfl

theorem char_eq_of_toNat {c d : Char} (h : c.toNat = d.toNat) : c = d := by
  rw [← Char.ofNat_toNat c, ← Char.ofNat_toNat d, h]

theorem toLower_toLower (c : Char) : Char.toLower (Char.toLower c) = Char.toLower c := by
  have h1 := toNat_toLower c
  rw [toLower_eq (Char.toLower c)]
  split
  case isTrue h => exfalso; split at h1 <;> omega
  case isFalse h => rfl

theorem toUpper_toUpper (c : Char) : Char.toUpper (Char.toUpper c) = Char.toUpper c := by
  have h1 := toNat_toUpper c
  rw [toUpper_eq (Char.toUpper c)]
  split
  case isTrue h => exfalso; split at h1 <;> omega
  case isFalse h => rfl

theorem isWhitespace_iff_toNat (c : Char) :
    c.isWhitespace = true ↔ (c.toNat = 32 ∨ c.toNat = 9 ∨ c.toNat = 13 ∨ c.toNat = 10) := by
  constructor
  · intro h
    simp only [Char.isWhitespace, Bool.or_eq_true, decide_eq_true_eq] at h
    rcases h with ((h | h) | h) | h <;> subst h <;> simp [Char.toNat]
  · intro h
    have : c = ' ' ∨ c = '\t' ∨ c = '\r' ∨ c = '\n' := by
      rcases h with h | h | h | h
      · exact Or.inl (char_eq_of_toNat h)
      · exact Or.inr (Or.inl (char_eq_of_toNat h))
      · exact Or.inr (Or.inr (Or.inl (char_eq_of_toNat h)))
      · exact Or.inr (Or.inr (Or.inr (char_eq_of_toNat h)))
    rcases this with h | h | h | h <;> subst h <;> rfl

theorem isWhitespace_toLower (c : Char) : (Char.toLower c).isWhitespace = c.isWhitespace := by
  have h1 := toNat_toLower c
  by_cases h : c.toNat ≥ 65 ∧ c.toNat ≤ 90
  · rw [if_pos h] at h1
    have hl : (Char.toLower c).isWhitespace = false := by
      rw [Bool.eq_false_iff]
      intro hw
      rw [isWhitespace_iff_toNat] at hw
      omega
    have hc : c.isWhitespace = false := by
      rw [Bool.eq_false_iff]
      intro hw
      rw [isWhitespace_iff_toNat] at hw
      omega
    rw [hl, hc]
  · rw [if_neg h] at h1
    rw [char_eq_of_toNat h1]

theorem isWhitespace_toUpper (c : Char) : (Char.toUpper c).isWhitespace = c.isWhitespace := by
  have h1 := toNat_toUpper c
  by_cases h : c.toNat ≥ 97 ∧ c.toNat ≤ 122
  · rw [if_pos h] at h1
    have hl : (Char.toUpper c).isWhitespace = false := by
      rw [Bool.eq_false_iff]
      intro hw
      rw [isWhitespace_iff_toNat] at hw
      omega
    have hc : c.isWhitespace = false := by
      rw [Bool.eq_false_iff]
      intro hw
      rw [isWhitespace_iff_toNat] at hw
      omega
    rw [hl, hc]
  · rw [if_neg h] at h1
    rw [char_eq_of_toNat h1]


theorem dropWhile_map_pres {f : Char → Char} (hf : ∀ c, (f c).isWhitespace = c.isWhitespace)
    (s : Str) :
    List.dropWhile Char.isWhitespace (s.map f)
      = (List.dropWhile Char.isWhitespace s).map f := by
  have hp : (Char.isWhitespace ∘ f) = Char.isWhitespace := funext fun c => hf c
  rw [List.dropWhile_map, hp]

theorem rdropWhile_map_pres {f : Char → Char} (hf : ∀ c, (f c).isWhitespace = c.isWhitespace)
    (s : Str) :
    List.rdropWhile Char.isWhitespace (s.map f)
      = (List.rdropWhile Char.isWhitespace s).map f := by
  unfold List.rdropWhile
  rw [← List.map_reverse, dropWhile_map_pres hf, List.map_reverse]

theorem trim_map_pres {f : Char → Char} (hf : ∀ c, (f c).isWhitespace = c.isWhitespace)
    (s : Str) : trim (s.map f) = (trim s).map f := by
  unfold trim
  rw [dropWhile_map_pres hf, rdropWhile_map_pres hf]

theorem trim_toLowerStr (s : Str) : trim (toLowerStr s) = toLowerStr (trim s) :=
  trim_map_pres isWhitespace_toLower s

theorem trim_toUpperStr (s : Str) : trim (toUpperStr s) = toUpperStr (trim s) :=
  trim_map_pres isWhitespace_toUpper s

theorem toLowerStr_toLowerStr (s : Str) : toLowerStr (toLowerStr s) = toLowerStr s := by
  unfold toLowerStr
  rw [List.map_map]
  have hc : (Char.toLower ∘ Char.toLower) = Char.toLower := funext fun c => toLower_toLower c
  rw [hc]

theorem toUpperStr_toUpperStr (s : Str) : toUpperStr (toUpperStr s) = toUpperStr s := by
  unfold toUpperStr
  rw [List.map_map]
  have hc : (Char.toUpper ∘ Char.toUpper) = Char.toUpper := funext fun c => toUpper_toUpper c
  rw [hc]

theorem dropWhile_trim (s : Str) :
    List.dropWhile Char.isWhitespace (trim s) = trim s := by
  rw [List.dropWhile_eq_self_iff]
  intro hl
  have hpre : trim s <+: List.dropWhile Char.isWhitespace s :=
    List.rdropWhile_prefix Char.isWhitespace (List.dropWhile Char.isWhitespace s)
  have hlen : 0 < (List.dropWhile Char.isWhitespace s).length :=
    lt_of_lt_of_le hl hpre.length_le
  have hnot := List.dropWhile_get_zero_not Char.isWhitespace s hlen
  rw [List.get_eq_getElem] at hnot ⊢
  rw [hpre.getElem hl]
  exact hnot

theorem trim_trim (s : Str) : trim (trim s) = trim s := by
  have h1 : trim (trim s) = List.rdropWhile Char.isWhitespace (List.dropWhile Char.isWhitespace (trim s)) := rfl
  rw [h1, dropWhile_trim]
  exact List.rdropWhile_idempotent Char.isWhitespace (List.dropWhile Char.isWhitespace s)

theorem transform_eq (v : FullStrValidator) (s : Str) :
    v.transform s = caseStep v (stripStep v s) := rfl

theorem stripStep_stripStep (v : FullStrValidator) (s : Str) :
    stripStep v (stripStep v s) = stripStep v s := by
  by_cases h : v.strip_whitespace = true <;> simp [stripStep, h, trim_trim]

theorem caseStep_caseStep (v : FullStrValidator) (s : Str) :
    caseStep v (caseStep v s) = caseStep v s := by
  by_cases hl : v.to_lower = true <;> by_cases hu : v.to_upper = true <;>
    simp [caseStep, hl, hu, toLowerStr_toLowerStr, toUpperStr_toUpperStr]

theorem stripStep_caseStep (v : FullStrValidator) (s : Str) :
    stripStep v (caseStep v s) = caseStep v (stripStep v s) := by
  by_cases hsw : v.strip_whitespace = true <;> by_cases hl : v.to_lower = true <;>
      by_cases hu : v.to_upper = true <;>
    simp [stripStep, caseStep, hsw, hl, hu, trim_toLowerStr, trim_toUpperStr]

theorem transform_transform (v : FullStrValidator) (s : Str) :
    v.transform (v.transform s) = v.transform s := by
  rw [transform_eq, transform_eq, stripStep_caseStep, caseStep_caseStep, stripStep_stripStep,
    ← transform_eq]


theorem validate_text_eq (v : FullStrValidator) (s : Str) :
    v.validate (.text s) = v.checkMin s := rfl

theorem validate_coercible_eq (v : FullStrValidator) (s : Str) :
    v.validate (.coercible s) = v.checkMin s := rfl

theorem checkPattern_ok_inv {v : FullStrValidator} {s r : Str}
    (h : v.checkPattern s = .ok r) : r = v.transform s := by
  unfold FullStrValidator.checkPattern at h
  split at h
  · split at h
    · exact (Except.ok.inj h).symm
    · exact Except.noConfusion h
  · exact (Except.ok.inj h).symm

theorem checkMax_ok_inv {v : FullStrValidator} {s r : Str}
    (h : v.checkMax s = .ok r) : r = v.transform s := by
  unfold FullStrValidator.checkMax at h
  split at h
  · split at h
    · exact Except.noConfusion h
    · exact checkPattern_ok_inv h
  · exact checkPattern_ok_inv h

theorem checkMin_ok_inv {v : FullStrValidator} {s r : Str}
    (h : v.checkMin s = .ok r) : r = v.transform s := by
  unfold FullStrValidator.checkMin at h
  split at h
  · split at h
    · exact Except.noConfusion h
    · exact checkMax_ok_inv h
  · exact checkMax_ok_inv h

theorem checkPattern_pass (v : FullStrValidator) (s : Str) (h : patViol v s = false) :
    v.checkPattern s = .ok (v.transform s) := by
  cases hp : v.pattern with
  | none => simp [FullStrValidator.checkPattern, hp]
  | some p =>
    have hm : p.is_match s = true := by
      unfold patViol at h
      rw [hp] at h
      simpa using h
    simp [FullStrValidator.checkPattern, hp, hm]

theorem checkMax_pass (v : FullStrValidator) (s : Str) (h : maxViol v s = false) :
    v.checkMax s = v.checkPattern s := by
  cases hm : v.max_length with
  | none => simp [FullStrValidator.checkMax, hm]
  | some n =>
    have hl : ¬(strLen s > n) := by
      unfold maxViol at h
      rw [hm] at h
      simpa using h
    simp [FullStrValidator.checkMax, hm, hl]

theorem checkMin_pass (v : FullStrValidator) (s : Str) (h : minViol v s = false) :
    v.checkMin s = v.checkMax s := by
  cases hm : v.min_length with
  | none => simp [FullStrValidator.checkMin, hm]
  | some n =>
    have hl : ¬(strLen s < n) := by
      unfold minViol at h
      rw [hm] at h
      simpa using h
    simp [FullStrValidator.checkMin, hm, hl]

theorem checkMin_err_short (v : FullStrValidator) (n : Nat) (s : Str)
    (hm : v.min_length = some n) (hl : strLen s < n) :
    v.checkMin s = .error ⟨.StrTooShort, [("min_length", .nat n)]⟩ := by
  simp [FullStrValidator.checkMin, hm, hl]

theorem checkMax_err_long (v : FullStrValidator) (n : Nat) (s : Str)
    (hm : v.max_length = some n) (hl : strLen s > n) :
    v.checkMax s = .error ⟨.StrTooLong, [("max_length", .nat n)]⟩ := by
  simp [FullStrValidator.checkMax, hm, hl]

theorem checkPattern_err_mismatch (v : FullStrValidator) (p : RegexPattern) (s : Str)
    (hp : v.pattern = some p) (hm : p.is_match s = false) :
    v.checkPattern s = .error ⟨.StrPatternMismatch, [("pattern", .str p.source)]⟩ := by
  simp [FullStrValidator.checkPattern, hp, hm]

theorem checksOk_split {v : FullStrValidator} {s : Str} (h : checksOk v s = true) :
    minViol v s = false ∧ maxViol v s = false ∧ patViol v s = false := by
  unfold checksOk at h
  simp only [Bool.and_eq_true, Bool.not_eq_true'] at h
  exact ⟨h.1.1, h.1.2, h.2⟩

theorem checkMin_of_checksOk (v : FullStrValidator) (s : Str) (h : checksOk v s = true) :
    v.checkMin s = .ok (v.transform s) := by
  obtain ⟨h1, h2, h3⟩ := checksOk_split h
  rw [checkMin_pass v s h1, checkMax_pass v s h2, checkPattern_pass v s h3]

theorem checkMin_ok_checksOk {v : FullStrValidator} {s r : Str}
    (h : v.checkMin s = .ok r) : checksOk v s = true := by
  by_cases h1 : minViol v s = true
  · obtain ⟨n, hm⟩ : ∃ n, v.min_length = some n := by
      unfold minViol at h1
      cases hmm : v.min_length with
      | none => rw [hmm] at h1; exact absurd h1 (by simp)
      | some n => exact ⟨n, rfl⟩
    have hl : strLen s < n := by
      unfold minViol at h1
      rw [hm] at h1
      simpa using h1
    rw [checkMin_err_short v n s hm hl] at h
    exact Except.noConfusion h
  · have h1f : minViol v s = false := by simpa using h1
    rw [checkMin_pass v s h1f] at h
    by_cases h2 : maxViol v s = true
    · obtain ⟨n, hm⟩ : ∃ n, v.max_length = some n := by
        unfold maxViol at h2
        cases hmm : v.max_length with
        | none => rw [hmm] at h2; exact absurd h2 (by simp)
        | some n => exact ⟨n, rfl⟩
      have hl : strLen s > n := by
        unfold maxViol at h2
        rw [hm] at h2
        simpa using h2
      rw [checkMax_err_long v n s hm hl] at h
      exact Except.noConfusion h
    · have h2f : maxViol v s = false := by simpa using h2
      rw [checkMax_pass v s h2f] at h
      by_cases h3 : patViol v s = true
      · obtain ⟨p, hp⟩ : ∃ p, v.pattern = some p := by
          unfold patViol at h3
          cases hpp : v.pattern with
          | none => rw [hpp] at h3; exact absurd h3 (by simp)
          | some p => exact ⟨p, rfl⟩
        have hm : p.is_match s = false := by
          unfold patViol at h3
          rw [hp] at h3
          simpa using h3
        rw [checkPattern_err_mismatch v p s hp hm] at h
        exact Except.noConfusion h
      · have h3f : patViol v s = false := by simpa using h3
        unfold checksOk
        rw [h1f, h2f, h3f]
        rfl

theorem checkMin_error_kind {v : FullStrValidator} {s : Str} {e : ValError}
    (h : v.checkMin s = .error e) :
    (minViol v s = true ∧ e.kind = .StrTooShort)
    ∨ (minViol v s = false ∧ maxViol v s = true ∧ e.kind = .StrTooLong)
    ∨ (minViol v s = false ∧ maxViol v s = false ∧ patViol v s = true
        ∧ e.kind = .StrPatternMismatch) := by
  by_cases h1 : minViol v s = true
  · obtain ⟨n, hm⟩ : ∃ n, v.min_length = some n := by
      unfold minViol at h1
      cases hmm : v.min_length with
      | none => rw [hmm] at h1; exact absurd h1 (by simp)
      | some n => exact ⟨n, rfl⟩
    have hl : strLen s < n := by
      unfold minViol at h1
      rw [hm] at h1
      simpa using h1
    rw [checkMin_err_short v n s hm hl] at h
    have he := Except.error.inj h
    exact Or.inl ⟨h1, by rw [← he]⟩
  · have h1f : minViol v s = false := by simpa using h1
    rw [checkMin_pass v s h1f] at h
    by_cases h2 : maxViol v s = true
    · obtain ⟨n, hm⟩ : ∃ n, v.max_length = some n := by
        unfold maxViol at h2
        cases hmm : v.max_length with
        | none => rw [hmm] at h2; exact absurd h2 (by simp)
        | some n => exact ⟨n, rfl⟩
      have hl : strLen s > n := by
        unfold maxViol at h2
        rw [hm] at h2
        simpa using h2
      rw [checkMax_err_long v n s hm hl] at h
      have he := Except.error.inj h
      exact Or.inr (Or.inl ⟨h1f, h2, by rw [← he]⟩)
    · have h2f : maxViol v s = false := by simpa using h2
      rw [checkMax_pass v s h2f] at h
      by_cases h3 : patViol v s = true
      · obtain ⟨p, hp⟩ : ∃ p, v.pattern = some p := by
          unfold patViol at h3
          cases hpp : v.pattern with
          | none => rw [hpp] at h3; exact absurd h3 (by simp)
          | some p => exact ⟨p, rfl⟩
        have hm : p.is_match s = false := by
          unfold patViol at h3
          rw [hp] at h3
          simpa using h3
        rw [checkPattern_err_mismatch v p s hp hm] at h
        have he := Except.error.inj h
        exact Or.inr (Or.inr ⟨h1f, h2f, h3, by rw [← he]⟩)
      · have h3f : patViol v s = false := by simpa using h3
        rw [checkPattern_pass v s h3f] at h
        exact Except.noConfusion h


theorem checkPattern_congr {v w : FullStrValidator} (s : Str)
    (hpat : v.pattern = w.pattern) (htr : v.transform s = w.transform s) :
    v.checkPattern s = w.checkPattern s := by
  unfold FullStrValidator.checkPattern
  rw [hpat, htr]

theorem checkMax_congr {v w : FullStrValidator} (s : Str)
    (hpat : v.pattern = w.pattern) (hmax : v.max_length = w.max_length)
    (htr : v.transform s = w.transform s) :
    v.checkMax s = w.checkMax s := by
  unfold FullStrValidator.checkMax
  rw [hmax, checkPattern_congr s hpat htr]

theorem checkMin_congr {v w : FullStrValidator} (s : Str)
    (hpat : v.pattern = w.pattern) (hmax : v.max_length = w.max_length)
    (hmin : v.min_length = w.min_length) (htr : v.transform s = w.transform s) :
    v.checkMin s = w.checkMin s := by
  unfold FullStrValidator.checkMin
  rw [hmin, checkMax_congr s hpat hmax htr]

/-- Claim C1: for every input value that coerces to text, the min_length,
max_length and pattern checks are evaluated on the original untransformed
text (`checksOk` on the coerced value), and only afterwards are the
strip_whitespace and case transforms applied to produce the result
(`transform`); in particular a validator with `min_length = 6` and
`strip_whitespace = true` accepts `"  hi  "` with result `"hi"`. -/
theorem claim_c1 :
    (∀ (v : FullStrValidator) (i : InputValue) (s : Str), validate_str i = .ok s →
        (v.validate i = .ok (v.transform s) ↔ checksOk v s = true))
    ∧ vStrip6.validate (.text strHiPad) = .ok strHi := by
  constructor
  · intro v i s hs
    have hv : v.validate i = v.checkMin s := by
      unfold FullStrValidator.validate
      rw [hs]
    rw [hv]
    constructor
    · intro h
      exact checkMin_ok_checksOk h
    · intro h
      exact checkMin_of_checksOk v s h
  · rfl

/-- Witness for C1 at the validator with `min_length = 6`,
`strip_whitespace = true` and input `"  hi  "`. -/
theorem claim_c1_witness :
    (vStrip6.validate (.text strHiPad) = .ok (vStrip6.transform strHiPad)
      ↔ checksOk vStrip6 strHiPad = true) :=
  claim_c1.1 vStrip6 (.text strHiPad) strHiPad rfl

/-- Claim C2: the simple validator kind matches a `(declared_type, schema)`
pair iff the declared type is `"str"` and none of the six recognized
constraint keys is present; the simple validator performs only the text
coercion and returns the coerced value unchanged, with no constraint
checks. -/
theorem claim_c2 :
    (∀ (t : String) (d : Schema),
        SimpleStrValidator.is_match t d = true ↔
          (t = "str" ∧ get_item d "pattern" = none ∧ get_item d "min_length" = none
            ∧ get_item d "max_length" = none ∧ get_item d "strip_whitespace" = none
            ∧ get_item d "to_lower" = none ∧ get_item d "to_upper" = none))
    ∧ (∀ i : InputValue, SimpleStrValidator.validate i = validate_str i)
    ∧ (∀ s : Str, SimpleStrValidator.validate (.text s) = .ok s) := by
  refine ⟨?_, ?_, ?_⟩
  · intro t d
    unfold SimpleStrValidator.is_match
    simp [Bool.and_eq_true, Option.isNone_iff_eq_none, and_assoc]
  · intro i
    cases i <;> rfl
  · intro s
    rfl

/-- Claim C3: with `min_length` configured, every coerced text value of
length strictly below the bound fails with `StrTooShort` and context
`min_length ↦ bound`, and every value of length at least the bound passes
this check (the pipeline continues with the `max_length` check). -/
theorem claim_c3 : ∀ (v : FullStrValidator) (n : Nat) (s : Str), v.min_length = some n →
    (strLen s < n → v.validate (.text s) = .error ⟨.StrTooShort, [("min_length", .nat n)]⟩)
    ∧ (n ≤ strLen s → v.validate (.text s) = v.checkMax s) := by
  intro v n s hm
  constructor
  · intro hl
    rw [validate_text_eq]
    exact checkMin_err_short v n s hm hl
  · intro hl
    rw [validate_text_eq]
    apply checkMin_pass
    unfold minViol
    rw [hm]
    simp only [decide_eq_false_iff_not]
    omega

/-- Witness for C3: `min_length = 5` rejects the length-2 input `"ab"`
with `StrTooShort` and context `min_length = 5`. -/
theorem claim_c3_witness :
    (vMinOnly 5).validate (.text strAb) = .error ⟨.StrTooShort, [("min_length", .nat 5)]⟩ :=
  (claim_c3 (vMinOnly 5) 5 strAb rfl).1 (by decide)

/-- Counterexample to C4 as stated: for the validator with
`min_length = 10` and `max_length = 3`, the input `"abcde"` has length
strictly greater than `max_length`, yet validation fails with
`StrTooShort` (the earlier `min_length` check fires first), not
`StrTooLong`. -/
theorem claim_c4_counterexample :
    (vMinMax 10 3).max_length = some 3
    ∧ strLen strAbcde > 3
    ∧ (vMinMax 10 3).validate (.text strAbcde)
        = .error ⟨.StrTooShort, [("min_length", .nat 10)]⟩
    ∧ ErrorKind.StrTooShort ≠ ErrorKind.StrTooLong := by
  refine ⟨rfl, by decide, rfl, by decide⟩

/-- Claim C4 (amended): with `max_length` configured, every coerced text
value that passes the `min_length` check and whose length is strictly
greater than the bound fails with `StrTooLong` and context
`max_length ↦ bound`; in particular with `max_length = 3`, `"abcd"`
fails and `"abc"` passes. -/
theorem claim_c4 :
    (∀ (v : FullStrValidator) (n : Nat) (s : Str), v.max_length = some n →
        minViol v s = false → strLen s > n →
        v.validate (.text s) = .error ⟨.StrTooLong, [("max_length", .nat n)]⟩)
    ∧ (vMaxOnly 3).validate (.text strAbcd) = .error ⟨.StrTooLong, [("max_length", .nat 3)]⟩
    ∧ (vMaxOnly 3).validate (.text strAbc) = .ok strAbc := by
  refine ⟨?_, rfl, rfl⟩
  intro v n s hm h1 hl
  rw [validate_text_eq, checkMin_pass v s h1]
  exact checkMax_err_long v n s hm hl

/-- Witness for C4: `max_length = 3` rejects `"abcd"` with `StrTooLong`
and context `max_length = 3`. -/
theorem claim_c4_witness :
    (vMaxOnly 3).validate (.text strAbcd)
      = .error ⟨.StrTooLong, [("max_length", .nat 3)]⟩ :=
  claim_c4.1 (vMaxOnly 3) 3 strAbcd rfl (by decide) (by decide)

/-- Claim C5: with a pattern configured, every coerced text value that
has passed the length checks and does not match the compiled pattern
fails with `StrPatternMismatch`, the context mapping `pattern` to the
original pattern string. -/
theorem claim_c5 : ∀ (v : FullStrValidator) (p : RegexPattern) (s : Str),
    v.pattern = some p → minViol v s = false → maxViol v s = false →
    p.is_match s = false →
    v.validate (.text s) = .error ⟨.StrPatternMismatch, [("pattern", .str p.source)]⟩ := by
  intro v p s hp h1 h2 hm
  rw [validate_text_eq, checkMin_pass v s h1, checkMax_pass v s h2]
  exact checkPattern_err_mismatch v p s hp hm

/-- Witness for C5: a validator whose pattern is a compiled
`"^[a-z]+$"` matcher rejects `"Hello"` with `StrPatternMismatch` and the
original pattern string in the context. -/
theorem claim_c5_witness :
    vPatternLower.validate (.text strHello)
      = .error ⟨.StrPatternMismatch, [("pattern", .str lowerAsciiPattern.source)]⟩ :=
  claim_c5 vPatternLower lowerAsciiPattern strHello rfl rfl rfl rfl


/-- With `to_lower` set, the transformation tail lowercases the
(possibly stripped) value, regardless of `to_upper`. -/
theorem transform_toLower {v : FullStrValidator} (hl : v.to_lower = true) (s : Str) :
    v.transform s = toLowerStr (if v.strip_whitespace then trim s else s) := by
  unfold FullStrValidator.transform
  rw [hl]
  simp

/-- Claim C6: when both `to_lower` and `to_upper` are set, every
successfully validated value is lowercased and the uppercase transform is
never applied — the validator behaves exactly like the same validator
with `to_upper` cleared; e.g. `"AbC"` validates to `"abc"`. -/
theorem claim_c6 :
    (∀ (v : FullStrValidator) (s : Str), v.to_lower = true → v.to_upper = true →
        v.transform s = toLowerStr (if v.strip_whitespace then trim s else s)
        ∧ (∀ i : InputValue, v.validate i = ({ v with to_upper := false }).validate i))
    ∧ vBothCase.validate (.text strAbC) = .ok ['a', 'b', 'c'] := by
  constructor
  · intro v s hl _hu
    refine ⟨transform_toLower hl s, ?_⟩
    intro i
    have htr : ∀ x : Str, v.transform x = ({ v with to_upper := false }).transform x := by
      intro x
      rw [transform_toLower hl x, transform_toLower (v := { v with to_upper := false }) hl x]
    cases i with
    | text s2 =>
      rw [validate_text_eq, validate_text_eq]
      exact checkMin_congr s2 rfl rfl rfl (htr s2)
    | coercible s2 =>
      rw [validate_coercible_eq, validate_coercible_eq]
      exact checkMin_congr s2 rfl rfl rfl (htr s2)
    | other => rfl
  · rfl

/-- Witness for C6 at the validator with both case flags set and input
`"AbC"`. -/
theorem claim_c6_witness :
    vBothCase.transform strAbC
      = toLowerStr (if vBothCase.strip_whitespace then trim strAbC else strAbC) :=
  ((claim_c6.1 vBothCase strAbC rfl rfl).1)

/-- Claim C7: every failing `validate` call produces exactly one
classified error, the first failure in pipeline order: a coercion
failure yields the wrong-type error before any constraint runs, and a
constraint error is `StrTooShort`, or `StrTooLong` with the min check
passing, or `StrPatternMismatch` with both length checks passing. -/
theorem claim_c7 :
    (∀ v : FullStrValidator, v.validate .other = .error ⟨.WrongType, []⟩)
    ∧ (∀ (v : FullStrValidator) (s : Str) (e : ValError), v.validate (.text s) = .error e →
        (minViol v s = true ∧ e.kind = .StrTooShort)
        ∨ (minViol v s = false ∧ maxViol v s = true ∧ e.kind = .StrTooLong)
        ∨ (minViol v s = false ∧ maxViol v s = false ∧ patViol v s = true
            ∧ e.kind = .StrPatternMismatch)) := by
  refine ⟨fun v => rfl, ?_⟩
  intro v s e h
  rw [validate_text_eq] at h
  exact checkMin_error_kind h

/-- Witness for C7 at `min_length = 5` and input `"ab"`. -/
theorem claim_c7_witness :
    (minViol (vMinOnly 5) strAb = true
        ∧ (ValError.mk .StrTooShort [("min_length", .nat 5)]).kind = .StrTooShort)
    ∨ (minViol (vMinOnly 5) strAb = false ∧ maxViol (vMinOnly 5) strAb = true
        ∧ (ValError.mk .StrTooShort [("min_length", .nat 5)]).kind = .StrTooLong)
    ∨ (minViol (vMinOnly 5) strAb = false ∧ maxViol (vMinOnly 5) strAb = false
        ∧ patViol (vMinOnly 5) strAb = true
        ∧ (ValError.mk .StrTooShort [("min_length", .nat 5)]).kind = .StrPatternMismatch) :=
  claim_c7.2 (vMinOnly 5) strAb ⟨.StrTooShort, [("min_length", .nat 5)]⟩ rfl

/-- Claim C8: the lengths used by the `min_length` and the `max_length`
comparisons are the same single measure `strLen` (UTF-8 byte length) for
every value: a value passes a `min_length = n` validator iff
`n ≤ strLen s` and a `max_length = n` validator iff `strLen s ≤ n`, and
every value satisfies both bounds set to its own `strLen`. -/
theorem claim_c8 :
    (∀ (n : Nat) (s : Str), (vMinOnly n).validate (.text s) = .ok s ↔ n ≤ strLen s)
    ∧ (∀ (n : Nat) (s : Str), (vMaxOnly n).validate (.text s) = .ok s ↔ strLen s ≤ n)
    ∧ (∀ s : Str, (vMinMax (strLen s) (strLen s)).validate (.text s) = .ok s) := by
  refine ⟨?_, ?_, ?_⟩
  · intro n s
    rw [validate_text_eq]
    constructor
    · intro h
      have hc := (checksOk_split (checkMin_ok_checksOk h)).1
      have h2 : decide (strLen s < n) = false := hc
      simp only [decide_eq_false_iff_not] at h2
      omega
    · intro h
      have hc : checksOk (vMinOnly n) s = true := by
        show (!(decide (strLen s < n)) && !(false : Bool) && !(false : Bool)) = true
        simp only [decide_eq_false_iff_not, Bool.not_false, Bool.and_true, Bool.not_eq_true']
        omega
      exact checkMin_of_checksOk (vMinOnly n) s hc
  · intro n s
    rw [validate_text_eq]
    constructor
    · intro h
      have hc := (checksOk_split (checkMin_ok_checksOk h)).2.1
      have h2 : decide (strLen s > n) = false := hc
      simp only [decide_eq_false_iff_not] at h2
      omega
    · intro h
      have hc : checksOk (vMaxOnly n) s = true := by
        show (!(false : Bool) && !(decide (strLen s > n)) && !(false : Bool)) = true
        simp only [Bool.not_false, Bool.true_and, Bool.and_true, Bool.not_eq_true',
          decide_eq_false_iff_not]
        omega
      exact checkMin_of_checksOk (vMaxOnly n) s hc
  · intro s
    rw [validate_text_eq]
    have hc : checksOk (vMinMax (strLen s) (strLen s)) s = true := by
      show (!(decide (strLen s < strLen s)) && !(decide (strLen s > strLen s))
          && !(false : Bool)) = true
      simp
    exact checkMin_of_checksOk (vMinMax (strLen s) (strLen s)) s hc

/-- Counterexample to C9 as stated: with `min_length = 6` and
`strip_whitespace = true`, the input `"  hi  "` validates to `"hi"`, but
re-validating the output `"hi"` fails with `StrTooShort`, so
re-validation of a prior success is not idempotent in general. -/
theorem claim_c9_counterexample :
    vStrip6.validate (.text strHiPad) = .ok strHi
    ∧ vStrip6.validate (.text strHi)
        = .error ⟨.StrTooShort, [("min_length", .nat 6)]⟩ := ⟨rfl, rfl⟩

/-- Claim C9 (amended): for every full validator and input on which
`validate` succeeds, if the successful output itself passes the
validator's min_length, max_length and pattern checks, then validating
the output succeeds and returns it unchanged (the strip and case
transforms are idempotent). -/
theorem claim_c9 : ∀ (v : FullStrValidator) (i : InputValue) (r : Str),
    v.validate i = .ok r → checksOk v r = true → v.validate (.text r) = .ok r := by
  intro v i r h hc
  obtain ⟨s, hs, hmin⟩ : ∃ s, validate_str i = .ok s ∧ v.checkMin s = .ok r := by
    cases hv : validate_str i with
    | error e =>
      unfold FullStrValidator.validate at h
      rw [hv] at h
      exact Except.noConfusion h
    | ok s =>
      unfold FullStrValidator.validate at h
      rw [hv] at h
      exact ⟨s, rfl, h⟩
  have hr : r = v.transform s := checkMin_ok_inv hmin
  rw [validate_text_eq, checkMin_of_checksOk v r hc, hr, transform_transform]

/-- Witness for C9: strip-and-lowercase validator on `"  Hi  "` gives
`"hi"`, and re-validating `"hi"` returns it unchanged. -/
theorem claim_c9_witness : vStripLower.validate (.text strHi) = .ok strHi :=
  claim_c9 vStripLower (.text strHiMixed) strHi rfl rfl

/-- Claim C10: a full validator built from a schema with none of the six
recognized constraint keys is the all-defaults validator, and on every
input it produces exactly the same outcome as the simple validator: the
pipeline reduces to the coercion step alone. -/
theorem claim_c10 : ∀ (d : Schema),
    get_item d "pattern" = none → get_item d "min_length" = none →
    get_item d "max_length" = none → get_item d "strip_whitespace" = none →
    get_item d "to_lower" = none → get_item d "to_upper" = none →
    FullStrValidator.build d = .ok defaultFull
    ∧ ∀ i : InputValue, defaultFull.validate i = SimpleStrValidator.validate i := by
  intro d h1 h2 h3 h4 h5 h6
  constructor
  · unfold FullStrValidator.build
    rw [h1]
    unfold dict_get_nat dict_get_bool
    rw [h2, h3, h4, h5, h6]
    rfl
  · intro i
    cases i <;> rfl

/-- Witness for C10 at the empty schema. -/
theorem claim_c10_witness : FullStrValidator.build [] = .ok defaultFull :=
  (claim_c10 [] rfl rfl rfl rfl rfl rfl).1

end PydanticStr
